import Mathlib

/-!
Verification of the polygenic-risk-score calculator core
(src/prs_calculator.py, src/populations.py, src/dna_parser.py, src/liftover.py)
against its natural-language specification.

Shallow embedding conventions:
* Python strings are Lean `String`; `str.upper()`, `str.lower()`, `str.strip()`,
  `str.replace(...)` and `int(...)` are modelled character-wise over the
  underlying char list (inputs are ASCII), keeping kernel reducibility.
* Python `float` values produced by the code under scrutiny are exact small
  decimals or integer counts, modelled as `ℚ`; the standard-normal CDF from
  scipy is modelled over `ℝ` as the Gaussian integral.
* Python `set` equality / subset on two-element allele sets is modelled as
  mutual / one-sided list containment, which agrees with set semantics.
* pandas DataFrames are modelled as lists of records; the inner merge on the
  chr:pos key is modelled as the key-equality pairing in left-major order.
* A Python function that may return `None` or raise returns an `Option`.
-/

open MeasureTheory

/-! ## Python string primitives -/

/-- Python `str.upper()`, character-wise (ASCII inputs). -/
def py_upper (s : String) : String := ⟨s.data.map Char.toUpper⟩

/-- Python `str.lower()`, character-wise (ASCII inputs). -/
def py_lower (s : String) : String := ⟨s.data.map Char.toLower⟩

/-- Python `str.strip()`: remove leading and trailing whitespace. -/
def py_strip (s : String) : String :=
  ⟨((s.data.dropWhile Char.isWhitespace).reverse.dropWhile
      Char.isWhitespace).reverse⟩

/-- Python `str.startswith(p)`. -/
def py_startswith (s p : String) : Bool := p.data.isPrefixOf s.data

/-- Left-to-right, non-overlapping replacement of the non-empty pattern
`p :: ps` by `rep`, as Python `str.replace` does.  The first argument is
recursion fuel (any value at least the input length gives the replacement
semantics; each step consumes at least one character), keeping the
definition structurally recursive and kernel-reducible. -/
def list_replace (p : Char) (ps rep : List Char) : Nat → List Char → List Char
  | 0, l => l
  | _ + 1, [] => []
  | fuel + 1, c :: rest =>
    if (p :: ps).isPrefixOf (c :: rest) then
      rep ++ list_replace p ps rep fuel (rest.drop ps.length)
    else
      c :: list_replace p ps rep fuel rest

/-- Python `s.replace(pat, rep)` (the code only uses non-empty patterns;
an empty pattern is returned unchanged). -/
def py_replace (s pat rep : String) : String :=
  match pat.data with
  | [] => s
  | p :: ps => ⟨list_replace p ps rep.data s.data.length s.data⟩

/-- The numeric value of a decimal digit character, if it is one. -/
def char_digit? (c : Char) : Option Nat :=
  if '0' ≤ c ∧ c ≤ '9' then some (c.toNat - '0'.toNat) else none

/-- Value of a non-empty all-digit character run. -/
def digits_val (l : List Char) : Option Nat :=
  if l = [] then none
  else
    l.foldl
      (fun acc c =>
        match acc, char_digit? c with
        | some n, some d => some (n * 10 + d)
        | _, _ => none)
      (some 0)

/-- Python `int(s)`: optional surrounding whitespace, optional sign,
decimal digits; `none` models the `ValueError` (digit-group underscores
are not modelled, the inputs at hand never carry them). -/
def py_int? (s : String) : Option Int :=
  let l := ((s.data.dropWhile Char.isWhitespace).reverse.dropWhile
      Char.isWhitespace).reverse
  match l with
  | '-' :: rest => (digits_val rest).map (fun n => -(n : Int))
  | '+' :: rest => (digits_val rest).map (fun n => (n : Int))
  | _ => (digits_val l).map (fun n => (n : Int))

/-- Association-list lookup by string key, modelling Python dict lookup
(distinct keys throughout this development). -/
def lookup_str {β : Type} (l : List (String × β)) (k : String) : Option β :=
  (l.find? (fun kv => decide (kv.1 = k))).map Prod.snd

/-! ## prs_calculator.py: complements and dosage -/

/-- COMPLEMENT dictionary from prs_calculator.py line 19: nucleotide
complement map; characters outside A/T/C/G map to themselves
(mirroring `COMPLEMENT.get(b, b)`). -/
def COMPLEMENT (c : Char) : Char :=
  if c = 'A' then 'T'
  else if c = 'T' then 'A'
  else if c = 'C' then 'G'
  else if c = 'G' then 'C'
  else c

/-- `get_complement` (prs_calculator.py lines 22-24):
join of per-character complement of the uppercased allele. -/
def get_complement (allele : String) : String :=
  ⟨(py_upper allele).data.map COMPLEMENT⟩

/-- Python set subset `xs <= ys` for allele sets represented as lists. -/
def set_subset (xs ys : List String) : Prop := ∀ x ∈ xs, x ∈ ys

instance (xs ys : List String) : Decidable (set_subset xs ys) :=
  List.decidableBAll _ xs

/-- Python set equality `xs == ys` for allele sets represented as lists. -/
def set_eq (xs ys : List String) : Prop := set_subset xs ys ∧ set_subset ys xs

instance (xs ys : List String) : Decidable (set_eq xs ys) :=
  instDecidableAnd

/-- Missing-genotype tokens checked at prs_calculator.py line 123. -/
def MISSING_TOKENS : List String := ["-", "--", "0", ""]

/-- `compute_dosage` (prs_calculator.py lines 91-144).
Returns the effect-allele count 0, 1 or 2 (the Python code returns it as the
exact float `float(count)`), or `none` when the alleles cannot be aligned.
The `pd.isna` guard on line 114 concerns pandas NaN cells, which do not arise
in the string model. -/
def compute_dosage (allele1 allele2 effect_allele other_allele : String) :
    Option Nat :=
  let a1 := py_upper allele1
  let a2 := py_upper allele2
  let eff := py_upper effect_allele
  let oth := py_upper other_allele
  if a1 ∈ MISSING_TOKENS ∨ a2 ∈ MISSING_TOKENS then none
  else
    let genotype_alleles := [a1, a2]
    let scoring_alleles := [eff, oth]
    if set_eq genotype_alleles scoring_alleles ∨
        set_subset genotype_alleles scoring_alleles then
      some ((if a1 = eff then 1 else 0) + (if a2 = eff then 1 else 0))
    else
      let eff_comp := get_complement eff
      let oth_comp := get_complement oth
      let scoring_alleles_comp := [eff_comp, oth_comp]
      if set_eq genotype_alleles scoring_alleles_comp ∨
          set_subset genotype_alleles scoring_alleles_comp then
        some ((if a1 = eff_comp then 1 else 0) + (if a2 = eff_comp then 1 else 0))
      else none

/-- A string made only of missing-data characters: empty, or a run over
the sentinel characters dash, zero, N. -/
def is_missing_run (s : String) : Prop :=
  ∀ c ∈ s.data, c ∈ (['-', '0', 'N'] : List Char)

instance (s : String) : Decidable (is_missing_run s) :=
  List.decidableBAll _ s.data

/-- A non-empty string over the nucleotide alphabet A, C, G, T. -/
def is_nuc_string (s : String) : Prop :=
  s.data ≠ [] ∧ ∀ c ∈ s.data, c ∈ (['A', 'C', 'G', 'T'] : List Char)

instance (s : String) : Decidable (is_nuc_string s) :=
  instDecidableAnd

/-! ## prs_calculator.py: matching and aggregation over record lists -/

/-- One parsed genotype record (the DataFrame columns used by matching). -/
structure GenoRow where
  rsid : String
  chrom : String
  pos : Int
  allele1 : String
  allele2 : String
deriving DecidableEq

/-- One scoring-file record; the model keeps the harmonized coordinates,
which is the branch taken for harmonized PGS files
(prs_calculator.py lines 57-58). -/
structure ScoreRow where
  hm_chr : String
  hm_pos : Int
  effect_allele : String
  other_allele : String
  effect_weight : ℚ
deriving DecidableEq

/-- chr:pos key of a genotype row (prs_calculator.py line 54). -/
def geno_key (g : GenoRow) : String := g.chrom ++ ":" ++ toString g.pos

/-- chr:pos key of a scoring row (prs_calculator.py line 58). -/
def score_key (s : ScoreRow) : String := s.hm_chr ++ ":" ++ toString s.hm_pos

/-- The pandas inner merge on the chr:pos key (prs_calculator.py
lines 63-69): all key-equal pairs, in left-major order. -/
def merge_inner (geno : List GenoRow) (scores : List ScoreRow) :
    List (GenoRow × ScoreRow) :=
  (geno.map (fun g =>
    scores.filterMap (fun s =>
      if geno_key g = score_key s then some (g, s) else none))).flatten

/-- `match_variants` (prs_calculator.py lines 32-88): join, per-row dosage,
then drop rows whose dosage is unresolved. -/
def match_variants (geno : List GenoRow) (scores : List ScoreRow) :
    List (GenoRow × ScoreRow × Nat) :=
  let matched := merge_inner geno scores
  if matched = [] then []
  else
    matched.filterMap (fun gs =>
      (compute_dosage gs.1.allele1 gs.1.allele2
          gs.2.effect_allele gs.2.other_allele).map
        (fun d => (gs.1, gs.2, d)))

/-- Result record of `calculate_prs` (the `matched_df` QC field is the
match list itself and is not duplicated here). -/
structure PRSResult where
  matched_variants : Nat
  total_variants : Nat
  match_rate : ℚ
  raw_prs : ℚ
deriving DecidableEq

/-- `calculate_prs` (prs_calculator.py lines 147-187). -/
def calculate_prs (geno : List GenoRow) (scores : List ScoreRow) : PRSResult :=
  let matched := match_variants geno scores
  let total_variants := scores.length
  let matched_variants := matched.length
  if matched_variants = 0 then
    ⟨0, total_variants, 0, 0⟩
  else
    ⟨matched_variants, total_variants,
      (matched_variants : ℚ) / (total_variants : ℚ) * 100,
      (matched.map (fun m => (m.2.2 : ℚ) * m.2.1.effect_weight)).sum⟩

/-! ## populations.py -/

/-- One entry of RISK_THRESHOLDS (populations.py lines 88-134); the
presentational fields (color, description, clinical_action) are constant
strings unused by any claim and are omitted.  The numeric type is left
generic, as the Python comparisons are duck-typed. -/
structure RiskThreshold (α : Type) where
  key : String
  min_percentile : α
  max_percentile : α
  label : String
deriving DecidableEq

/-- RISK_THRESHOLDS in its Python dict insertion order. -/
def RISK_THRESHOLDS (α : Type) [LinearOrderedField α] :
    List (RiskThreshold α) :=
  [⟨"very_low", 0, 10, "Very Low"⟩,
   ⟨"low", 10, 25, "Low"⟩,
   ⟨"average", 25, 75, "Average"⟩,
   ⟨"elevated", 75, 90, "Elevated"⟩,
   ⟨"high", 90, 100, "High"⟩]

/-- `get_risk_category` (populations.py lines 194-225): clamp to [0,100],
first band with min ≤ p < max in insertion order, else the "high" entry
(the edge case for exactly the 100th percentile). -/
def get_risk_category {α : Type} [LinearOrderedField α] (percentile : α) :
    RiskThreshold α :=
  let p := max 0 (min 100 percentile)
  match (RISK_THRESHOLDS α).find?
      (fun t => decide (t.min_percentile ≤ p ∧ p < t.max_percentile)) with
  | some t => t
  | none => ⟨"high", 90, 100, "High"⟩

/-- Normalization parameters of one population (populations.py lines 22-63);
name/description/example fields are unused constants and omitted. -/
structure PopulationParams where
  code : String
  mean : ℚ
  sd : ℚ
deriving DecidableEq

/-- POPULATION_PARAMS (populations.py lines 22-63). -/
def POPULATION_PARAMS : List (String × PopulationParams) :=
  [("EUR", ⟨"EUR", 0, 1⟩),
   ("AFR", ⟨"AFR", 0.2, 1.1⟩),
   ("EAS", ⟨"EAS", -0.1, 0.9⟩),
   ("SAS", ⟨"SAS", 0.1, 1.0⟩),
   ("AMR", ⟨"AMR", 0.05, 1.05⟩)]

/-- POPULATION_ALIASES (populations.py lines 66-84). -/
def POPULATION_ALIASES : List (String × String) :=
  [("european", "EUR"), ("caucasian", "EUR"), ("white", "EUR"),
   ("african", "AFR"), ("black", "AFR"), ("african_american", "AFR"),
   ("east_asian", "EAS"), ("asian", "EAS"), ("chinese", "EAS"),
   ("japanese", "EAS"), ("korean", "EAS"),
   ("south_asian", "SAS"), ("indian", "SAS"),
   ("latino", "AMR"), ("hispanic", "AMR"), ("admixed", "AMR"),
   ("mixed", "AMR")]

/-- `get_population_params` (populations.py lines 152-191); `none` models
the `ValueError` raised for an unknown ancestry. -/
def get_population_params (ancestry : String) : Option PopulationParams :=
  let ancestry_upper := py_strip (py_upper ancestry)
  let ancestry_lower :=
    py_replace (py_replace (py_strip (py_lower ancestry)) " " "_") "-" "_"
  match lookup_str POPULATION_PARAMS ancestry_upper with
  | some p => some p
  | none =>
    match lookup_str POPULATION_ALIASES ancestry_lower with
    | some code => lookup_str POPULATION_PARAMS code
    | none => none

/-! ## prs_calculator.py: normalization -/

/-- Modelled from the spec: `scipy.stats.norm.cdf` is an external library
call whose source is not in this repository; per the spec it is the
"standard-normal CDF", modelled as the Gaussian density integral. -/
noncomputable def normal_cdf (x : ℝ) : ℝ :=
  ∫ t in Set.Iic x, ProbabilityTheory.gaussianPDFReal 0 1 t

/-- Result of `normalize_prs`. -/
structure NormResult where
  zscore : ℝ
  percentile : ℝ
  risk_category : String

/-- `normalize_prs` (prs_calculator.py lines 190-220); `none` propagates the
unknown-ancestry error of `get_population_params`. -/
noncomputable def normalize_prs (raw_prs : ℝ) (population : String) :
    Option NormResult :=
  match get_population_params population with
  | none => none
  | some params =>
    let zscore : ℝ := (raw_prs - (params.mean : ℝ)) / (params.sd : ℝ)
    let percentile : ℝ := normal_cdf zscore * 100
    some ⟨zscore, percentile, (get_risk_category percentile).label⟩

/-! ## dna_parser.py: build detection -/

/-- BUILD_DETECTION_SNPS (dna_parser.py lines 20-27):
rsid ↦ ((GRCh37 chrom, pos), (GRCh38 chrom, pos)). -/
def BUILD_DETECTION_SNPS : List (String × ((String × Int) × (String × Int))) :=
  [("rs7412", (("19", 45412079), ("19", 44908822))),
   ("rs429358", (("19", 45411941), ("19", 44908684))),
   ("rs1801133", (("1", 11856378), ("1", 11796321))),
   ("rs12913832", (("15", 28365618), ("15", 28120472))),
   ("rs1426654", (("15", 48426484), ("15", 48134287)))]

/-- One loop iteration of the position heuristic of `detect_build`
(dna_parser.py lines 160-179), on an already-field-split data row:
`some false` tallies a GRCh37 agreement, `some true` a GRCh38 agreement,
`none` contributes nothing (unknown rsid, short row, or unparsable
position — the `except` path). -/
def classify_row (row : List String) : Option Bool :=
  if 3 ≤ row.length then
    let rsid := py_strip (row.getD 0 "")
    match lookup_str BUILD_DETECTION_SNPS rsid with
    | none => none
    | some expected =>
      let chrom := py_replace (py_strip (row.getD 1 "")) "chr" ""
      match py_int? (row.getD 2 "") with
      | none => none
      | some pos =>
        if expected.1.1 = chrom ∧ expected.1.2 = pos then some false
        else if expected.2.1 = chrom ∧ expected.2.2 = pos then some true
        else none
  else none

/-- One tally update of the `detect_build` loop. -/
def tally_step (acc : Nat × Nat) (row : List String) : Nat × Nat :=
  match classify_row row with
  | some false => (acc.1 + 1, acc.2)
  | some true => (acc.1, acc.2 + 1)
  | none => acc

/-- The (grch37_matches, grch38_matches) tally loop of `detect_build`
(dna_parser.py lines 156-179). -/
def tally_builds (rows : List (List String)) : Nat × Nat :=
  rows.foldl tally_step (0, 0)

/-- `detect_build` (dna_parser.py lines 112-185) on the no-header-hint path
(the claims' scope): the model input is the list of field-split data rows;
header scanning and file I/O are outside the core model. -/
def detect_build (rows : List (List String)) : String :=
  let t := tally_builds rows
  if t.2 > t.1 then "GRCh38" else "GRCh37"

/-! ## liftover.py -/

/-- `_normalize_build` (liftover.py lines 39-46). -/
def normalize_build (build : String) : String :=
  let b := py_strip build
  if b = "hg19" ∨ b = "b37" ∨ b = "build37" then "GRCh37"
  else if b = "hg38" ∨ b = "b38" ∨ b = "build38" then "GRCh38"
  else b

/-- `liftover_position` (liftover.py lines 123-180).  The pyliftover chain
lookup is an external collaborator; it enters the model as the `convert`
oracle returning the list of (chrom, 0-based pos, strand, score) mappings,
`none` standing for a raised exception (caught by the code) and `some []`
for "no mapping". -/
def liftover_position
    (convert : String → Int → Option (List (String × Int × String × ℚ)))
    (chrom : String) (pos : Int) (from_build to_build : String) :
    Option (String × Int) :=
  let fb := normalize_build from_build
  let tb := normalize_build to_build
  if fb = tb then some (chrom, pos)
  else
    let chrom_ucsc := if py_startswith chrom "chr" then chrom
      else "chr" ++ chrom
    let chrom_ucsc2 := if chrom_ucsc = "chrMT" ∨ chrom_ucsc = "chrM" then
      "chrM" else chrom_ucsc
    match convert chrom_ucsc2 (pos - 1) with
    | none => none
    | some [] => none
    | some (r :: _) =>
      let new_pos := r.2.1 + 1
      let nc := py_replace r.1 "chr" ""
      let new_chrom := if nc = "M" then "MT" else nc
      some (new_chrom, new_pos)

/-- `batch_liftover` (liftover.py lines 318-345).  On equal builds Python
returns the input tuples unchanged; under the `list[Optional[...]]` result
type this is the everywhere-present list, `positions.map some`. -/
def batch_liftover
    (convert : String → Int → Option (List (String × Int × String × ℚ)))
    (positions : List (String × Int)) (from_build to_build : String) :
    List (Option (String × Int)) :=
  let fb := normalize_build from_build
  let tb := normalize_build to_build
  if fb = tb then positions.map some
  else positions.map (fun cp => liftover_position convert cp.1 cp.2 fb tb)

/-! ## Character-class lemmas for the dosage proofs -/

lemma py_upper_data (s : String) :
    (py_upper s).data = s.data.map Char.toUpper := rfl

lemma get_complement_data (s : String) :
    (get_complement s).data = (s.data.map Char.toUpper).map COMPLEMENT := rfl

lemma upper_missing_run {s : String} (h : is_missing_run s) :
    is_missing_run (py_upper s) := by
  intro c hc
  rw [py_upper_data, List.mem_map] at hc
  obtain ⟨b, hb, rfl⟩ := hc
  have hmem := h b hb
  simp only [List.mem_cons, List.not_mem_nil, or_false] at hmem
  rcases hmem with rfl | rfl | rfl <;> decide

lemma upper_nuc {s : String} (h : is_nuc_string s) :
    is_nuc_string (py_upper s) := by
  refine ⟨by simpa [py_upper_data] using h.1, ?_⟩
  intro c hc
  rw [py_upper_data, List.mem_map] at hc
  obtain ⟨b, hb, rfl⟩ := hc
  have hmem := h.2 b hb
  simp only [List.mem_cons, List.not_mem_nil, or_false] at hmem
  rcases hmem with rfl | rfl | rfl | rfl <;> decide

lemma nuc_get_complement {s : String} (h : is_nuc_string s) :
    is_nuc_string (get_complement s) := by
  refine ⟨by simpa [get_complement_data] using h.1, ?_⟩
  intro c hc
  rw [get_complement_data, List.map_map, List.mem_map] at hc
  obtain ⟨b, hb, rfl⟩ := hc
  have hmem := h.2 b hb
  simp only [List.mem_cons, List.not_mem_nil, or_false] at hmem
  rcases hmem with rfl | rfl | rfl | rfl <;> decide

/-- A non-empty run of missing-data characters is never equal to a
nucleotide string: their first characters live in disjoint alphabets. -/
lemma missing_ne_nuc {s t : String} (hs : is_missing_run s)
    (hne : s.data ≠ []) (ht : is_nuc_string t) : s ≠ t := by
  intro heq
  subst heq
  obtain ⟨c, rest, hc⟩ : ∃ c rest, s.data = c :: rest := by
    cases h : s.data with
    | nil => exact absurd h hne
    | cons c rest => exact ⟨c, rest, rfl⟩
  have h1 := hs c (by rw [hc]; exact List.mem_cons_self c rest)
  have h2 := ht.2 c (by rw [hc]; exact List.mem_cons_self c rest)
  simp only [List.mem_cons, List.not_mem_nil, or_false] at h1 h2
  rcases h1 with rfl | rfl | rfl <;> simp at h2

/-- The branch guards of `compute_dosage` are false as soon as the first
genotype allele is outside the candidate scoring set. -/
lemma pair_cond_false_left {x y e o : String} (h1 : x ≠ e) (h2 : x ≠ o) :
    ¬ (set_eq [x, y] [e, o] ∨ set_subset [x, y] [e, o]) := by
  rintro (h | h)
  · have hx := h.1 x (by simp)
    simp only [List.mem_cons, List.not_mem_nil, or_false] at hx
    tauto
  · have hx := h x (by simp)
    simp only [List.mem_cons, List.not_mem_nil, or_false] at hx
    tauto

/-- Same for the second genotype allele. -/
lemma pair_cond_false_right {x y e o : String} (h1 : y ≠ e) (h2 : y ≠ o) :
    ¬ (set_eq [x, y] [e, o] ∨ set_subset [x, y] [e, o]) := by
  rintro (h | h)
  · have hy := h.1 y (by simp)
    simp only [List.mem_cons, List.not_mem_nil, or_false] at hy
    tauto
  · have hy := h y (by simp)
    simp only [List.mem_cons, List.not_mem_nil, or_false] at hy
    tauto

/-! ## C1 -/

/-- C1: for non-missing single-nucleotide inputs, when both genotype alleles
are among {effect_allele, other_allele} the dosage is the count of genotype
alleles equal to the effect allele; when they instead (and only then) lie in
the complemented scoring set, the count is taken against the complemented
effect allele; and the four concrete spec examples
(A,A,A,G) ↦ 2, (G,G,A,G) ↦ 0, (A,G,A,G) ↦ 1, (T,T,A,C) ↦ 2 hold. -/
theorem compute_dosage_counts_effect_allele
    (a1 a2 eff oth : String)
    (h1 : a1 = "A" ∨ a1 = "C" ∨ a1 = "G" ∨ a1 = "T")
    (h2 : a2 = "A" ∨ a2 = "C" ∨ a2 = "G" ∨ a2 = "T")
    (h3 : eff = "A" ∨ eff = "C" ∨ eff = "G" ∨ eff = "T")
    (h4 : oth = "A" ∨ oth = "C" ∨ oth = "G" ∨ oth = "T") :
    (((a1 = eff ∨ a1 = oth) ∧ (a2 = eff ∨ a2 = oth)) →
        compute_dosage a1 a2 eff oth =
          some ((if a1 = eff then 1 else 0) + (if a2 = eff then 1 else 0)))
    ∧ ((¬ ((a1 = eff ∨ a1 = oth) ∧ (a2 = eff ∨ a2 = oth))) →
        ((a1 = get_complement eff ∨ a1 = get_complement oth) ∧
          (a2 = get_complement eff ∨ a2 = get_complement oth)) →
        compute_dosage a1 a2 eff oth =
          some ((if a1 = get_complement eff then 1 else 0) +
            (if a2 = get_complement eff then 1 else 0)))
    ∧ compute_dosage "A" "A" "A" "G" = some 2
    ∧ compute_dosage "G" "G" "A" "G" = some 0
    ∧ compute_dosage "A" "G" "A" "G" = some 1
    ∧ compute_dosage "T" "T" "A" "C" = some 2 := by
  have main :
      (((a1 = eff ∨ a1 = oth) ∧ (a2 = eff ∨ a2 = oth)) →
        compute_dosage a1 a2 eff oth =
          some ((if a1 = eff then 1 else 0) + (if a2 = eff then 1 else 0)))
      ∧ ((¬ ((a1 = eff ∨ a1 = oth) ∧ (a2 = eff ∨ a2 = oth))) →
        ((a1 = get_complement eff ∨ a1 = get_complement oth) ∧
          (a2 = get_complement eff ∨ a2 = get_complement oth)) →
        compute_dosage a1 a2 eff oth =
          some ((if a1 = get_complement eff then 1 else 0) +
            (if a2 = get_complement eff then 1 else 0))) := by
    rcases h1 with rfl | rfl | rfl | rfl <;>
      rcases h2 with rfl | rfl | rfl | rfl <;>
      rcases h3 with rfl | rfl | rfl | rfl <;>
      rcases h4 with rfl | rfl | rfl | rfl <;> decide
  exact ⟨main.1, main.2, by decide, by decide, by decide, by decide⟩

/-- C1 witness: the theorem applied at the direct input (A,A,A,G) and the
strand-flip input (T,T,A,C). -/
theorem compute_dosage_counts_effect_allele_witness :
    compute_dosage "A" "A" "A" "G" = some 2 ∧
      compute_dosage "T" "T" "A" "C" = some 2 := by
  constructor
  · have h := (compute_dosage_counts_effect_allele "A" "A" "A" "G"
      (by decide) (by decide) (by decide) (by decide)).1 (by decide)
    have hv : ((if ("A" : String) = "A" then 1 else 0) +
        (if ("A" : String) = "A" then 1 else 0) : Nat) = 2 := by decide
    rw [hv] at h
    exact h
  · have h := (compute_dosage_counts_effect_allele "T" "T" "A" "C"
      (by decide) (by decide) (by decide) (by decide)).2.1
      (by decide) (by decide)
    have hv : ((if ("T" : String) = get_complement "A" then 1 else 0) +
        (if ("T" : String) = get_complement "A" then 1 else 0) : Nat) = 2 := by
      decide
    rw [hv] at h
    exact h

/-! ## C4 -/

/-- C4 counterexample: `compute_dosage("A","G","C","T")` is not unresolved;
the genotype set {A,G} equals the complement {G,A} of the scoring set
{C,T}, so the strand-flip branch resolves it. -/
theorem compute_dosage_AGCT_not_unresolved :
    compute_dosage "A" "G" "C" "T" ≠ none := by decide

/-- C4 amended: `compute_dosage("A","G","C","T")` resolves via the
strand-flip complement to dosage 1 (G matches the complemented effect
allele of C); a genuinely mismatched call such as
`compute_dosage("A","C","A","G")` returns unresolved. -/
theorem compute_dosage_AGCT_strand_flip_dosage_one :
    compute_dosage "A" "G" "C" "T" = some 1 ∧
      compute_dosage "A" "C" "A" "G" = none := by decide

/-! ## C7 -/

/-- C7: whenever either genotype allele is a missing-data sentinel (empty,
or a run over the characters dash, zero, N) and the scoring alleles are
non-empty strings over {A,C,G,T}, `compute_dosage` is unresolved. -/
theorem compute_dosage_missing_sentinel_unresolved
    (a1 a2 eff oth : String)
    (hm : is_missing_run a1 ∨ is_missing_run a2)
    (he : is_nuc_string eff) (ho : is_nuc_string oth) :
    compute_dosage a1 a2 eff oth = none := by
  by_cases hmiss : py_upper a1 ∈ MISSING_TOKENS ∨ py_upper a2 ∈ MISSING_TOKENS
  · simp only [compute_dosage]
    rw [if_pos hmiss]
  · have hE := upper_nuc he
    have hO := upper_nuc ho
    have hEc := nuc_get_complement hE
    have hOc := nuc_get_complement hO
    rcases hm with hm | hm
    · have hup := upper_missing_run hm
      have hne : (py_upper a1).data ≠ [] := by
        intro h0
        apply hmiss
        left
        have hstr : py_upper a1 = "" := String.ext h0
        rw [hstr]
        decide
      have hx1 : py_upper a1 ≠ py_upper eff := missing_ne_nuc hup hne hE
      have hx2 : py_upper a1 ≠ py_upper oth := missing_ne_nuc hup hne hO
      have hx3 : py_upper a1 ≠ get_complement (py_upper eff) :=
        missing_ne_nuc hup hne hEc
      have hx4 : py_upper a1 ≠ get_complement (py_upper oth) :=
        missing_ne_nuc hup hne hOc
      simp only [compute_dosage]
      rw [if_neg hmiss, if_neg (pair_cond_false_left hx1 hx2),
        if_neg (pair_cond_false_left hx3 hx4)]
    · have hup := upper_missing_run hm
      have hne : (py_upper a2).data ≠ [] := by
        intro h0
        apply hmiss
        right
        have hstr : py_upper a2 = "" := String.ext h0
        rw [hstr]
        decide
      have hx1 : py_upper a2 ≠ py_upper eff := missing_ne_nuc hup hne hE
      have hx2 : py_upper a2 ≠ py_upper oth := missing_ne_nuc hup hne hO
      have hx3 : py_upper a2 ≠ get_complement (py_upper eff) :=
        missing_ne_nuc hup hne hEc
      have hx4 : py_upper a2 ≠ get_complement (py_upper oth) :=
        missing_ne_nuc hup hne hOc
      simp only [compute_dosage]
      rw [if_neg hmiss, if_neg (pair_cond_false_right hx1 hx2),
        if_neg (pair_cond_false_right hx3 hx4)]

/-- C7 witness: the theorem applied at the spec example
`compute_dosage("-","-","A","G")`. -/
theorem compute_dosage_missing_sentinel_unresolved_witness :
    is_missing_run "-" ∧ is_nuc_string "A" ∧ is_nuc_string "G" ∧
      compute_dosage "-" "-" "A" "G" = none :=
  ⟨by decide, by decide, by decide,
    compute_dosage_missing_sentinel_unresolved "-" "-" "A" "G"
      (Or.inl (by decide)) (by decide) (by decide)⟩

/-! ## Risk-category lemmas -/

/-- Closed form of `get_risk_category` over all of ℚ: the clamp folds the
two overflow regions into the outermost bands, and percentile 100 lands in
the fallback "high" entry. -/
lemma grc_closed_form (p : ℚ) :
    get_risk_category p =
      if p < 10 then ⟨"very_low", 0, 10, "Very Low"⟩
      else if p < 25 then ⟨"low", 10, 25, "Low"⟩
      else if p < 75 then ⟨"average", 25, 75, "Average"⟩
      else if p < 90 then ⟨"elevated", 75, 90, "Elevated"⟩
      else ⟨"high", 90, 100, "High"⟩ := by
  rcases lt_or_le p 0 with h | h0
  · rw [if_pos (by linarith : p < 10)]
    unfold get_risk_category
    rw [min_eq_right (by linarith : p ≤ (100:ℚ)), max_eq_left h.le]
    decide
  · rcases lt_or_le (100:ℚ) p with h | h1
    · rw [if_neg (by linarith : ¬ p < 10), if_neg (by linarith : ¬ p < 25),
        if_neg (by linarith : ¬ p < 75), if_neg (by linarith : ¬ p < 90)]
      unfold get_risk_category
      rw [min_eq_left h.le, max_eq_right (by norm_num : (0:ℚ) ≤ 100)]
      decide
    · unfold get_risk_category
      rw [min_eq_right h1, max_eq_right h0]
      rcases lt_or_le p 10 with hA | hA
      · simp [List.find?, h0, hA]
      · rcases lt_or_le p 25 with hB | hB
        · simp [List.find?, hA, hB, not_lt.mpr hA]
        · rcases lt_or_le p 75 with hC | hC
          · simp [List.find?, hB, hC, not_lt.mpr hA, not_lt.mpr hB]
          · rcases lt_or_le p 90 with hD | hD
            · simp [List.find?, hC, hD, not_lt.mpr hA, not_lt.mpr hB,
                not_lt.mpr hC]
            · rcases lt_or_eq_of_le h1 with h100 | h100
              · simp [List.find?, hD, h100, not_lt.mpr hA, not_lt.mpr hB,
                  not_lt.mpr hC, not_lt.mpr hD]
              · subst h100
                decide

/-! ## C2 -/

/-- C2: on [0,100] the five risk bands partition the range with boundaries
at 10, 25, 75, 90, each lower-inclusive and upper-exclusive except the
final band which is closed at 100; the function returns exactly the band
owning the percentile. -/
theorem get_risk_category_five_band_partition (p : ℚ)
    (h0 : 0 ≤ p) (h1 : p ≤ 100) :
    (get_risk_category p).label =
      if 0 ≤ p ∧ p < 10 then "Very Low"
      else if 10 ≤ p ∧ p < 25 then "Low"
      else if 25 ≤ p ∧ p < 75 then "Average"
      else if 75 ≤ p ∧ p < 90 then "Elevated"
      else "High" := by
  rw [grc_closed_form]
  rcases lt_or_le p 10 with hA | hA
  · rw [if_pos hA, if_pos (⟨h0, hA⟩ : 0 ≤ p ∧ p < 10)]
  · rw [if_neg (not_lt.mpr hA),
      if_neg (fun hx : 0 ≤ p ∧ p < 10 => absurd hx.2 (not_lt.mpr hA))]
    rcases lt_or_le p 25 with hB | hB
    · rw [if_pos hB, if_pos (⟨hA, hB⟩ : 10 ≤ p ∧ p < 25)]
    · rw [if_neg (not_lt.mpr hB),
        if_neg (fun hx : 10 ≤ p ∧ p < 25 => absurd hx.2 (not_lt.mpr hB))]
      rcases lt_or_le p 75 with hC | hC
      · rw [if_pos hC, if_pos (⟨hB, hC⟩ : 25 ≤ p ∧ p < 75)]
      · rw [if_neg (not_lt.mpr hC),
          if_neg (fun hx : 25 ≤ p ∧ p < 75 => absurd hx.2 (not_lt.mpr hC))]
        rcases lt_or_le p 90 with hD | hD
        · rw [if_pos hD, if_pos (⟨hC, hD⟩ : 75 ≤ p ∧ p < 90)]
        · rw [if_neg (not_lt.mpr hD),
            if_neg (fun hx : 75 ≤ p ∧ p < 90 => absurd hx.2 (not_lt.mpr hD))]

/-- C2 witness: the theorem applied at percentile 50, which is owned by the
Average band. -/
theorem get_risk_category_five_band_partition_witness :
    (0:ℚ) ≤ 50 ∧ (50:ℚ) ≤ 100 ∧
      (get_risk_category (50:ℚ)).label = "Average" := by
  refine ⟨by decide, by decide, ?_⟩
  rw [get_risk_category_five_band_partition 50 (by decide) (by decide)]
  decide

/-! ## C10 -/

/-- C10: `get_risk_category` is total over all rational inputs because it
first clamps to [0,100]: negative percentiles give Very Low, percentiles
above 100 give High, the result is invariant under the clamp, and it is
always one of the five configured categories. -/
theorem get_risk_category_total_and_clamped (p : ℚ) :
    (p < 0 → (get_risk_category p).label = "Very Low")
    ∧ (100 < p → (get_risk_category p).label = "High")
    ∧ get_risk_category p = get_risk_category (max 0 (min 100 p))
    ∧ get_risk_category p ∈ RISK_THRESHOLDS ℚ := by
  refine ⟨?_, ?_, ?_, ?_⟩
  · intro h
    rw [grc_closed_form, if_pos (by linarith : p < 10)]
  · intro h
    rw [grc_closed_form, if_neg (by linarith : ¬ p < 10),
      if_neg (by linarith : ¬ p < 25), if_neg (by linarith : ¬ p < 75),
      if_neg (by linarith : ¬ p < 90)]
  · have hidem : max 0 (min 100 (max 0 (min 100 p))) = max 0 (min 100 p) := by
      have hq1 : max 0 (min 100 p) ≤ 100 :=
        max_le (by norm_num) (min_le_left _ _)
      rw [min_eq_right hq1, max_eq_right (le_max_left _ _)]
    unfold get_risk_category
    rw [hidem]
  · rw [grc_closed_form]
    split_ifs <;> decide

/-- C10 witness: the theorem applied below and above the clamp range. -/
theorem get_risk_category_total_and_clamped_witness :
    ((-5:ℚ) < 0 ∧ (get_risk_category (-5:ℚ)).label = "Very Low") ∧
      (100 < (101:ℚ) ∧ (get_risk_category (101:ℚ)).label = "High") :=
  ⟨⟨by decide, (get_risk_category_total_and_clamped (-5)).1 (by decide)⟩,
    ⟨by decide, (get_risk_category_total_and_clamped 101).2.1 (by decide)⟩⟩

/-! ## Aggregation lemmas -/

/-- Merging any genotype set against an empty scoring table is empty. -/
lemma merge_inner_nil (geno : List GenoRow) : merge_inner geno [] = [] := by
  induction geno with
  | nil => rfl
  | cons g gs ih =>
    simpa [merge_inner, List.map_cons] using ih

/-! ## C5 -/

/-- C5 counterexample: for one genotype record matching the single scoring
entry, `calculate_prs` reports match_rate 100, while the plain ratio
matched_count / total_count is 1 — the stored rate is a percentage,
not the bare ratio claimed. -/
theorem calculate_prs_match_rate_not_plain_ratio :
    (calculate_prs [⟨"rs1", "1", 100, "A", "A"⟩]
        [⟨"1", 100, "A", "G", 1⟩]).match_rate = 100 ∧
    ((calculate_prs [⟨"rs1", "1", 100, "A", "A"⟩]
        [⟨"1", 100, "A", "G", 1⟩]).matched_variants : ℚ) /
      ((calculate_prs [⟨"rs1", "1", 100, "A", "A"⟩]
        [⟨"1", 100, "A", "G", 1⟩]).total_variants : ℚ) = 1 ∧
    (100 : ℚ) ≠ 1 := by
  have hm : (calculate_prs [⟨"rs1", "1", 100, "A", "A"⟩]
      [⟨"1", 100, "A", "G", 1⟩]).match_rate =
      ((1 : Nat) : ℚ) / ((1 : Nat) : ℚ) * 100 := rfl
  have h1 : (calculate_prs [⟨"rs1", "1", 100, "A", "A"⟩]
      [⟨"1", 100, "A", "G", 1⟩]).matched_variants = 1 := rfl
  have h2 : (calculate_prs [⟨"rs1", "1", 100, "A", "A"⟩]
      [⟨"1", 100, "A", "G", 1⟩]).total_variants = 1 := rfl
  refine ⟨?_, ?_, by norm_num⟩
  · rw [hm]
    norm_num
  · rw [h1, h2]
    norm_num

/-- C5 amended: for every genotype set and non-empty scoring table,
match_rate = matched_count / total_count × 100 (a percentage), with
total_count the full size of the scoring table. -/
theorem calculate_prs_match_rate_is_percentage
    (geno : List GenoRow) (scores : List ScoreRow) (h : scores ≠ []) :
    (calculate_prs geno scores).match_rate =
      ((calculate_prs geno scores).matched_variants : ℚ) /
        ((calculate_prs geno scores).total_variants : ℚ) * 100 ∧
    (calculate_prs geno scores).total_variants = scores.length := by
  simp only [calculate_prs]
  by_cases hm : (match_variants geno scores).length = 0
  · rw [if_pos hm]
    exact ⟨by simp, rfl⟩
  · rw [if_neg hm]
    exact ⟨rfl, rfl⟩

/-- C5 witness: the amended theorem applied to an empty genotype set and a
one-entry scoring table. -/
theorem calculate_prs_match_rate_is_percentage_witness :
    (calculate_prs ([] : List GenoRow) [⟨"1", 100, "A", "G", 1⟩]).match_rate =
      ((calculate_prs ([] : List GenoRow)
          [⟨"1", 100, "A", "G", 1⟩]).matched_variants : ℚ) /
        ((calculate_prs ([] : List GenoRow)
          [⟨"1", 100, "A", "G", 1⟩]).total_variants : ℚ) * 100 :=
  (calculate_prs_match_rate_is_percentage [] [⟨"1", 100, "A", "G", 1⟩]
    (List.cons_ne_nil _ _)).1

/-! ## C6 -/

/-- C6: for every genotype set, `calculate_prs` on an empty scoring table
returns raw_prs = 0, matched_variants = 0, total_variants = 0 and
match_rate = 0 (and, being a total function, raises no error). -/
theorem calculate_prs_empty_scoring_table (geno : List GenoRow) :
    (calculate_prs geno []).raw_prs = 0 ∧
    (calculate_prs geno []).matched_variants = 0 ∧
    (calculate_prs geno []).total_variants = 0 ∧
    (calculate_prs geno []).match_rate = 0 := by
  have hmv : match_variants geno [] = [] := by
    simp [match_variants, merge_inner_nil geno]
  simp [calculate_prs, hmv]

/-! ## Build-detection lemmas -/

/-- The fold of `tally_builds` counts, over any starting accumulator, the
rows classified to each build. -/
lemma tally_foldl_eq (rows : List (List String)) : ∀ a b : Nat,
    rows.foldl tally_step (a, b) =
      (a + rows.countP (fun r => decide (classify_row r = some false)),
       b + rows.countP (fun r => decide (classify_row r = some true))) := by
  induction rows with
  | nil => intro a b; simp
  | cons r rs ih =>
    intro a b
    cases hc : classify_row r with
    | none =>
      simp [tally_step, hc, List.countP_cons, ih]
    | some bb =>
      cases bb <;> simp [tally_step, hc, List.countP_cons, ih a, ih] <;> omega

/-- The loop tally equals the independent counts of agreeing rows. -/
lemma tally_builds_eq (rows : List (List String)) :
    tally_builds rows =
      (rows.countP (fun r => decide (classify_row r = some false)),
       rows.countP (fun r => decide (classify_row r = some true))) := by
  have h := tally_foldl_eq rows 0 0
  simpa [tally_builds] using h

/-! ## C8 -/

/-- C8: `detect_build` (no-header-hint path) is total and always returns one
of the two build labels; it returns "GRCh38" exactly when strictly more
marker rows agree with their known GRCh38 chrom:pos than with their known
GRCh37 chrom:pos, and on ties or no matches (in particular whenever the
GRCh38 count does not exceed the GRCh37 count) it returns "GRCh37". -/
theorem detect_build_total_and_majority (rows : List (List String)) :
    (detect_build rows = "GRCh37" ∨ detect_build rows = "GRCh38") ∧
    (detect_build rows = "GRCh38" ↔
      rows.countP (fun r => decide (classify_row r = some false)) <
        rows.countP (fun r => decide (classify_row r = some true))) ∧
    (rows.countP (fun r => decide (classify_row r = some true)) ≤
        rows.countP (fun r => decide (classify_row r = some false)) →
      detect_build rows = "GRCh37") := by
  simp only [detect_build, tally_builds_eq, gt_iff_lt]
  split_ifs with h
  · exact ⟨Or.inr rfl, ⟨fun _ => h, fun _ => rfl⟩,
      fun hle => absurd h (not_lt.mpr hle)⟩
  · exact ⟨Or.inl rfl,
      ⟨fun hx => absurd hx (by decide), fun hlt => absurd hlt h⟩,
      fun _ => rfl⟩

/-- C8 witness: the theorem applied to a row that agrees with the GRCh38
position of rs7412, and to an empty record set (tie at 0-0). -/
theorem detect_build_total_and_majority_witness :
    detect_build [["rs7412", "19", "44908822"]] = "GRCh38" ∧
      detect_build [] = "GRCh37" :=
  ⟨(detect_build_total_and_majority [["rs7412", "19", "44908822"]]).2.1.mpr
      (by decide),
    (detect_build_total_and_majority []).2.2 (by decide)⟩

/-! ## C9 -/

/-- C9: with equal source and target builds, `liftover_position` returns its
input unchanged and `batch_liftover` returns the input list unchanged (every
entry present, none unmapped), for every chain-conversion oracle. -/
theorem liftover_identity_when_builds_equal
    (convert : String → Int → Option (List (String × Int × String × ℚ)))
    (chrom : String) (pos : Int) (positions : List (String × Int))
    (build : String) :
    liftover_position convert chrom pos build build = some (chrom, pos) ∧
    batch_liftover convert positions build build = positions.map some ∧
    ∀ r ∈ batch_liftover convert positions build build, r ≠ none := by
  have hpos : batch_liftover convert positions build build =
      positions.map some := by
    simp [batch_liftover]
  refine ⟨?_, hpos, ?_⟩
  · simp [liftover_position]
  · intro r hr
    rw [hpos] at hr
    obtain ⟨cp, -, rfl⟩ := List.mem_map.mp hr
    exact Option.some_ne_none cp

/-- C9 witness: the theorem applied to concrete coordinates, both in GRCh
notation and through the hg alias normalization. -/
theorem liftover_identity_when_builds_equal_witness :
    liftover_position (fun _ _ => none) "1" 12345 "GRCh37" "GRCh37" =
      some ("1", 12345) ∧
    batch_liftover (fun _ _ => none) [("X", 7)] "hg38" "hg38" =
      [some ("X", 7)] :=
  ⟨(liftover_identity_when_builds_equal (fun _ _ => none) "1" 12345 []
      "GRCh37").1,
    (liftover_identity_when_builds_equal (fun _ _ => none) "X" 0 [("X", 7)]
      "hg38").2.1⟩

/-! ## Standard-normal CDF lemmas -/

lemma gaussian_pdf_even (x : ℝ) :
    ProbabilityTheory.gaussianPDFReal 0 1 (-x) =
      ProbabilityTheory.gaussianPDFReal 0 1 x := by
  simp [ProbabilityTheory.gaussianPDFReal, neg_sq]

lemma normal_cdf_nonneg (x : ℝ) : 0 ≤ normal_cdf x :=
  setIntegral_nonneg measurableSet_Iic
    (fun t _ => ProbabilityTheory.gaussianPDFReal_nonneg 0 1 t)

lemma normal_cdf_le_one (x : ℝ) : normal_cdf x ≤ 1 := by
  show (∫ t in Set.Iic x, ProbabilityTheory.gaussianPDFReal 0 1 t) ≤ 1
  calc (∫ t in Set.Iic x, ProbabilityTheory.gaussianPDFReal 0 1 t)
      ≤ ∫ t, ProbabilityTheory.gaussianPDFReal 0 1 t :=
        setIntegral_le_integral
          (ProbabilityTheory.integrable_gaussianPDFReal 0 1)
          (Filter.Eventually.of_forall
            (ProbabilityTheory.gaussianPDFReal_nonneg 0 1))
    _ = 1 := ProbabilityTheory.integral_gaussianPDFReal_eq_one 0 one_ne_zero

lemma normal_cdf_zero : normal_cdf 0 = 1 / 2 := by
  have hint := ProbabilityTheory.integrable_gaussianPDFReal 0 1
  have hcomp := integral_comp_neg_Iic (0:ℝ)
    (ProbabilityTheory.gaussianPDFReal 0 1)
  have heven : (∫ t in Set.Iic (0:ℝ),
      ProbabilityTheory.gaussianPDFReal 0 1 (-t)) = normal_cdf 0 := by
    rw [normal_cdf]
    simp only [gaussian_pdf_even]
  rw [neg_zero] at hcomp
  have hIoi : (∫ t in Set.Ioi (0:ℝ),
      ProbabilityTheory.gaussianPDFReal 0 1 t) = normal_cdf 0 := by
    rw [← hcomp, heven]
  have hsplit : (∫ t in Set.Iic (0:ℝ),
        ProbabilityTheory.gaussianPDFReal 0 1 t) +
      (∫ t in Set.Ioi (0:ℝ), ProbabilityTheory.gaussianPDFReal 0 1 t) =
      ∫ t, ProbabilityTheory.gaussianPDFReal 0 1 t :=
    intervalIntegral.integral_Iic_add_Ioi hint.integrableOn hint.integrableOn
  rw [ProbabilityTheory.integral_gaussianPDFReal_eq_one 0 one_ne_zero] at hsplit
  have hcdf : normal_cdf 0 + normal_cdf 0 = 1 := by
    calc normal_cdf 0 + normal_cdf 0
        = (∫ t in Set.Iic (0:ℝ), ProbabilityTheory.gaussianPDFReal 0 1 t) +
            ∫ t in Set.Ioi (0:ℝ), ProbabilityTheory.gaussianPDFReal 0 1 t := by
          rw [hIoi, normal_cdf]
      _ = 1 := hsplit
  linarith

/-! ## C3 -/

/-- C3: for every finite raw score and ancestry recognized by
`get_population_params`, `normalize_prs` returns
zscore = (raw − mean) / sd and percentile = standard-normal CDF(zscore) × 100,
which always lies in [0,100]; and `normalize_prs 0 "EUR"` (mean 0, sd 1)
yields zscore 0 and percentile exactly 50. -/
theorem normalize_prs_zscore_percentile
    (raw : ℝ) (pop : String) (params : PopulationParams)
    (h : get_population_params pop = some params) :
    (∃ r : NormResult, normalize_prs raw pop = some r ∧
        r.zscore = (raw - (params.mean : ℝ)) / (params.sd : ℝ) ∧
        r.percentile = normal_cdf r.zscore * 100 ∧
        0 ≤ r.percentile ∧ r.percentile ≤ 100) ∧
    (∃ r0 : NormResult, normalize_prs 0 "EUR" = some r0 ∧
        r0.zscore = 0 ∧ r0.percentile = 50) := by
  constructor
  · simp only [normalize_prs, h]
    refine ⟨_, rfl, rfl, rfl, ?_, ?_⟩
    · exact mul_nonneg (normal_cdf_nonneg _) (by norm_num)
    · calc normal_cdf ((raw - (params.mean : ℝ)) / (params.sd : ℝ)) * 100
          ≤ 1 * 100 :=
            mul_le_mul_of_nonneg_right (normal_cdf_le_one _) (by norm_num)
        _ = 100 := by norm_num
  · have hEUR : get_population_params "EUR" = some ⟨"EUR", 0, 1⟩ := rfl
    simp only [normalize_prs, hEUR]
    have hz0 : ((0:ℝ) - (((0:ℚ)):ℝ)) / (((1:ℚ)):ℝ) = 0 := by norm_num
    refine ⟨_, rfl, hz0, ?_⟩
    rw [hz0, normal_cdf_zero]
    norm_num

/-- C3 witness: the theorem applied at raw score 1 for ancestry EUR, whose
lookup hypothesis holds definitionally. -/
theorem normalize_prs_zscore_percentile_witness :
    get_population_params "EUR" = some ⟨"EUR", 0, 1⟩ ∧
    ∃ r : NormResult, normalize_prs 1 "EUR" = some r ∧
      r.zscore = ((1:ℝ) - (((0:ℚ)):ℝ)) / (((1:ℚ)):ℝ) ∧
      0 ≤ r.percentile ∧ r.percentile ≤ 100 := by
  refine ⟨rfl, ?_⟩
  obtain ⟨⟨r, hr, hz, hp, h0, h1⟩, -⟩ :=
    normalize_prs_zscore_percentile 1 "EUR" ⟨"EUR", 0, 1⟩ rfl
  exact ⟨r, hr, hz, h0, h1⟩
